import Mathlib

/-!
Formal model of the Veritas SPARK runtime kernel (MythologIQ/Veritas-SPARK).

The Python package under src/core-runtime/python/veritas_spark re-exports the
kernel from a compiled extension module `_core` whose source is not in the
repository; only the export surface (`__all__`) is present. The kernel itself
(sessions, registry, inference engine, streaming, cancellation) is therefore
modelled here from the specification, definition by definition, and the
claims are settled against that model. The export surface, which is real
source, is embedded verbatim as a list of names.

Machine quantities are Nat/Int; real time is abstracted: the generation loop
counts checkpoints, and a timeout or cancellation request is a schedule
saying at which checkpoint (number of tokens already produced) it is first
observed, matching the spec's cooperative-checkpoint model.
-/

namespace VeritasSpark

/-- Modelled from the spec: kinds of `InferenceError` (§7): backend execution
failure, session busy, malformed params; plus the failure of re-consuming a
one-shot stream (§4.4 says re-consumption fails with `InferenceError`). -/
inductive InferKind where
  | backendFailure
  | busy
  | malformedParams
  | streamConsumed
deriving DecidableEq, Repr

/-- Modelled from the spec: the error taxonomy of §7. `CoreError` is the
umbrella; each other kind is a specialization, so a single inductive with one
constructor per kind (plus the resource-exhaustion umbrella case) models it. -/
inductive CoreErr where
  | authentication
  | model
  | inference (kind : InferKind)
  | timeout
  | cancellation
  | resourceExhausted
deriving DecidableEq, Repr

/-- True exactly on the `InferenceError` kind of the taxonomy. -/
def CoreErr.isInference : CoreErr → Bool
  | .inference _ => true
  | _ => false

/-- Modelled from the spec: why generation ended (§3 `InferenceResult`):
length-limit reached, natural end-of-sequence, cancelled, timed out. -/
inductive StopReason where
  | lengthLimit
  | naturalEnd
  | cancelled
  | timedOut
deriving DecidableEq, Repr

/-- Modelled from the spec: `ModelInfo` (§3) — model id, display name,
context-window size, vocabulary size; immutable once registered. -/
structure ModelInfo where
  id : Nat
  displayName : String
  contextWindow : Nat
  vocabSize : Nat
deriving DecidableEq, Repr

/-- Modelled from the spec: the opaque `ModelBackend` capability (§9)
exposing only produce-next-token-given-context; `none` signals the natural
end-of-sequence. -/
def ModelBackend : Type := List Nat → Option Nat

/-- Modelled from the spec: one registry entry — the backend capability, its
static info, and the per-model in-flight counter used by `unload` (§4.2). -/
structure RegEntry where
  backend : ModelBackend
  info : ModelInfo
  inflight : Nat

/-- Modelled from the spec: `ModelRegistry` (§2, §4.2) — maps a model
identifier to its loaded backend and info; an association list keyed by id. -/
structure ModelRegistry where
  table : List (Nat × RegEntry)

/-- Lookup of a model id in the registry table. -/
def ModelRegistry.find (r : ModelRegistry) (id : Nat) : Option RegEntry :=
  r.table.lookup id

/-- Modelled from the spec: `register(id, backend, info)` fails with
`ModelError` if `id` is already registered (§4.2); otherwise records the
entry with a zero in-flight counter. -/
def ModelRegistry.register (r : ModelRegistry) (id : Nat) (b : ModelBackend)
    (info : ModelInfo) : Except CoreErr ModelRegistry :=
  match r.find id with
  | some _ => .error .model
  | none => .ok { table := (id, ⟨b, info, 0⟩) :: r.table }

/-- Modelled from the spec: `resolve(id) -> ModelBackend, ModelInfo` fails
with `ModelError` if unknown (§4.2). -/
def ModelRegistry.resolve (r : ModelRegistry) (id : Nat) :
    Except CoreErr (ModelBackend × ModelInfo) :=
  match r.find id with
  | some e => .ok (e.backend, e.info)
  | none => .error .model

/-- Modelled from the spec: `unload(id)` fails with `ModelError` if the id is
unknown or any session holds an active inference against the model (per-model
in-flight counter non-zero); otherwise releases the entry (§4.2). -/
def ModelRegistry.unload (r : ModelRegistry) (id : Nat) :
    Except CoreErr ModelRegistry :=
  match r.find id with
  | none => .error .model
  | some e =>
    if e.inflight = 0 then
      .ok { table := r.table.filter (fun en => en.1 != id) }
    else .error .model

/-- Modelled from the spec: the session state machine of §4.4:
`Active → InferenceRunning → Active`, or `… → Cancelling → Active`, or
`→ Destroyed` (terminal). -/
inductive SessionPhase where
  | active
  | inferenceRunning
  | cancelling
  | destroyed
deriving DecidableEq, Repr

/-- Modelled from the spec: `SessionManager` (§4.3) — live-session table
keyed by session id, fresh-id counter, max-concurrent-sessions bound. -/
structure SessionManager where
  nextId : Nat
  maxSessions : Nat
  table : List (Nat × SessionPhase)
deriving DecidableEq, Repr

/-- Modelled from the spec: `create(runtime)` fails with `CoreError`
(resource-exhausted kind) when the max-concurrent-sessions bound is reached;
otherwise assigns a fresh unique id and registers the session (§4.3). -/
def SessionManager.create (m : SessionManager) :
    Except CoreErr (Nat × SessionManager) :=
  if m.maxSessions ≤ m.table.length then .error .resourceExhausted
  else
    .ok (m.nextId,
      { m with nextId := m.nextId + 1, table := (m.nextId, .active) :: m.table })

/-- Modelled from the spec: `destroy(session_id)` (§4.3) — cancels any
in-flight inference synchronously and removes the session from the live
table; destroying an already-destroyed (absent) session is a no-op. The
operation is total: it never fails. -/
def SessionManager.destroy (m : SessionManager) (sid : Nat) : SessionManager :=
  { m with table := m.table.filter (fun e => e.1 != sid) }

/-- Modelled from the spec: process-wide configuration held by `Runtime`
(§3): the configured secret the `AuthValidator` checks against, max sessions,
default timeout. -/
structure RuntimeConfig where
  secret : String
  maxSessions : Nat
  defaultTimeoutMs : Nat
deriving DecidableEq, Repr

/-- Modelled from the spec: `AuthValidator.validate(credential)` (§4.1) —
verifies a presented credential against the runtime's configured secret;
fails with `AuthenticationError`. (Constant-time comparison is a timing
property outside the functional model.) -/
def AuthValidator.validate (secret credential : String) : Except CoreErr Unit :=
  if credential = secret then .ok () else .error .authentication

/-- Modelled from the spec: `Runtime` (§3) — holds the authenticated
credential, the `ModelRegistry` and the `SessionManager`. -/
structure Runtime where
  credential : String
  registry : ModelRegistry
  manager : SessionManager

/-- Modelled from the spec: `Runtime.new(credential, config)` (§6) —
validates the credential exactly once at construction; on failure no
`Runtime` value is produced (§4.1, §7). -/
def Runtime.new (cfg : RuntimeConfig) (credential : String) :
    Except CoreErr Runtime :=
  match AuthValidator.validate cfg.secret credential with
  | .error e => .error e
  | .ok _ =>
    .ok { credential := credential,
          registry := { table := [] },
          manager := { nextId := 0, maxSessions := cfg.maxSessions, table := [] } }

/-- Modelled from the spec: `InferenceParams` (§3) — model id, input token
sequence, max new tokens (an integer, so that the malformed non-positive case
of §7 is expressible), optional per-call timeout. Sampling configuration is
opaque to every claim and omitted. -/
structure InferenceParams where
  modelId : Nat
  tokens : List Nat
  maxNewTokens : Int
  timeoutMs : Option Nat

/-- Modelled from the spec: admissibility of params (§3, §7) — non-empty
input token sequence and max new tokens > 0. -/
def InferenceParams.valid (p : InferenceParams) : Bool :=
  !p.tokens.isEmpty && decide (0 < p.maxNewTokens)

/-- Modelled from the spec: `InferenceResult` (§3) — complete output token
sequence, stop reason, token count, elapsed time (abstracted to the number of
generation steps taken). -/
structure InferenceResult where
  tokens : List Nat
  stopReason : StopReason
  tokenCount : Nat
  elapsedSteps : Nat
deriving Repr

/-- Modelled from the spec: a streaming chunk (§3) — a single produced token,
its position index, and a flag marking the final chunk. -/
structure StreamingResult where
  token : Nat
  index : Nat
  isFinal : Bool
deriving DecidableEq, Repr

/-- Whether a cooperative interrupt schedule (cancellation or timeout) is
observed at the checkpoint where `produced` tokens have been produced:
`some k` means the request is first visible at every checkpoint with
`produced ≥ k`; `none` means never. -/
def fires (schedule : Option Nat) (produced : Nat) : Bool :=
  match schedule with
  | some k => decide (k ≤ produced)
  | none => false

/-- Modelled from the spec: the `InferenceEngine` generation loop (§4.5) —
feeds the context to the backend and repeatedly requests the next token until
max-new-tokens is reached (`fuel` exhausted), the backend signals natural
end-of-sequence, cancellation is observed, or the timeout elapses. A
checkpoint sits between every two tokens (§9): at each checkpoint the loop
first observes a fired timeout, then a fired cancellation, and only then
commits to producing the next token. -/
def genLoop (backend : ModelBackend) (cancelAt timeoutAt : Option Nat)
    (ctx : List Nat) (produced fuel : Nat) : List Nat × StopReason :=
  match fuel with
  | 0 => ([], .lengthLimit)
  | fuel1 + 1 =>
    if fires timeoutAt produced then ([], .timedOut)
    else if fires cancelAt produced then ([], .cancelled)
    else
      match backend ctx with
      | none => ([], .naturalEnd)
      | some t =>
        let g := genLoop backend cancelAt timeoutAt (ctx ++ [t]) (produced + 1) fuel1
        (t :: g.1, g.2)

/-- Chunks of a token list starting at position `i`, marking the last chunk
final; realizes the streaming protocol's chunk encoding (§3). -/
def chunksFrom (i : Nat) : List Nat → List StreamingResult
  | [] => []
  | [t] => [⟨t, i, true⟩]
  | t :: t2 :: rest => ⟨t, i, false⟩ :: chunksFrom (i + 1) (t2 :: rest)

/-- Modelled from the spec: the lazy streaming sequence (§4.4) — a finite
chunk list (finite by construction: a `List`) together with a one-shot
consumption flag; the sequence is not restartable. -/
structure TokenStream where
  chunks : List StreamingResult
  consumed : Bool

/-- Modelled from the spec: consuming the one-shot stream — the first
consumption yields all chunks and marks the stream consumed; consuming it
twice fails with `InferenceError` (§4.4). -/
def TokenStream.consume (s : TokenStream) :
    Except CoreErr (List StreamingResult × TokenStream) :=
  if s.consumed then .error (.inference .streamConsumed)
  else .ok (s.chunks, { chunks := s.chunks, consumed := true })

/-- Modelled from the spec: a `Session` (§3, §4.4) — its unique id and its
state-machine phase (the execution-serialization lock and cancellation flag
are both reflected in the phase). -/
structure Session where
  sid : Nat
  phase : SessionPhase
deriving DecidableEq, Repr

/-- Modelled from the spec: `Session.infer(params)` (§4.4, §4.5) — fails with
the busy kind of `InferenceError` when an inference is already in flight on
the session; fails with `CancellationError` on a destroyed session; validates
params (`InferenceError`, malformed); resolves the model (`ModelError` when
unknown, §4.2 and Scenario D); then runs the engine. A run stopped by the
timeout schedule surfaces `TimeoutError`, one stopped by the cancellation
schedule surfaces `CancellationError`; in every completed call the session is
returned in the `Active` phase (busy flag cleared). -/
def Session.infer (s : Session) (reg : ModelRegistry) (p : InferenceParams)
    (cancelAt timeoutAt : Option Nat) :
    Session × Except CoreErr InferenceResult :=
  match s.phase with
  | .inferenceRunning => (s, .error (.inference .busy))
  | .cancelling => (s, .error (.inference .busy))
  | .destroyed => (s, .error .cancellation)
  | .active =>
    if p.valid then
      match reg.resolve p.modelId with
      | .error e => (s, .error e)
      | .ok be =>
        let g := genLoop be.1 cancelAt timeoutAt p.tokens 0 p.maxNewTokens.toNat
        match g.2 with
        | .timedOut => (s, .error .timeout)
        | .cancelled => (s, .error .cancellation)
        | r => (s, .ok ⟨g.1, r, g.1.length, g.1.length⟩)
    else (s, .error (.inference .malformedParams))

/-- Modelled from the spec: `Session.infer_streaming(params)` (§4.4) — same
precondition checks as `infer`; on success returns the one-shot stream of
chunks. A cancellation observed mid-generation does not fail the stream: it
simply emits no further chunks. -/
def Session.inferStreaming (s : Session) (reg : ModelRegistry)
    (p : InferenceParams) (cancelAt : Option Nat) :
    Session × Except CoreErr TokenStream :=
  match s.phase with
  | .inferenceRunning => (s, .error (.inference .busy))
  | .cancelling => (s, .error (.inference .busy))
  | .destroyed => (s, .error .cancellation)
  | .active =>
    if p.valid then
      match reg.resolve p.modelId with
      | .error e => (s, .error e)
      | .ok be =>
        let g := genLoop be.1 cancelAt none p.tokens 0 p.maxNewTokens.toNat
        (s, .ok { chunks := chunksFrom 0 g.1, consumed := false })
    else (s, .error (.inference .malformedParams))

/-- Modelled from the spec: the observable operations on one session's state
machine (§4.4): the start gate of `infer`/`infer_streaming`, completion of
the in-flight call, a cancellation request, a destroy request. -/
inductive SOp where
  | startCall
  | finishCall
  | cancelReq
  | destroyReq
deriving DecidableEq, Repr

/-- Modelled from the spec: one transition of the session state machine
(§4.4, §5): starting a call on an `Active` session moves it to
`InferenceRunning`; starting one while a call is in flight fails fast with
the busy kind of `InferenceError` and changes nothing; `cancel()` moves
`InferenceRunning` to `Cancelling`; completion returns to `Active`; destroy
is terminal from any state. -/
def sessionStep (p : SessionPhase) (op : SOp) : SessionPhase × Option CoreErr :=
  match p, op with
  | .active, .startCall => (.inferenceRunning, none)
  | .inferenceRunning, .startCall => (.inferenceRunning, some (.inference .busy))
  | .cancelling, .startCall => (.cancelling, some (.inference .busy))
  | .destroyed, .startCall => (.destroyed, some .cancellation)
  | .inferenceRunning, .finishCall => (.active, none)
  | .cancelling, .finishCall => (.active, none)
  | q, .finishCall => (q, none)
  | .inferenceRunning, .cancelReq => (.cancelling, none)
  | q, .cancelReq => (q, none)
  | _, .destroyReq => (.destroyed, none)

/-- Number of inference executions in flight in a given phase: one while
running or cancelling, zero otherwise. -/
def inflightCount : SessionPhase → Nat
  | .inferenceRunning => 1
  | .cancelling => 1
  | _ => 0

/-- The phase a session reaches after a sequence of operations. -/
def execTrace (p : SessionPhase) : List SOp → SessionPhase
  | [] => p
  | op :: ops => execTrace (sessionStep p op).1 ops

/-- The `__all__` export list of
src/core-runtime/python/veritas_spark/__init__.py, embedded verbatim. -/
def veritasSparkAll : List String :=
  ["Runtime", "Session", "AsyncSession", "InferenceParams", "InferenceResult",
   "StreamingResult", "ModelInfo", "CoreError", "AuthenticationError",
   "InferenceError", "ModelError", "TimeoutError", "CancellationError",
   "__version__"]

/-- The class names through which the spec's external interface (§6) is
reached: `Runtime`, `Session`, `AsyncSession` for construction, session
lifecycle and inference, and `ModelRegistry` for register/resolve/unload.
This definition follows the spec's words, for comparison against the
package's real export surface. -/
def specInterfaceClasses : List String :=
  ["Runtime", "Session", "AsyncSession", "ModelRegistry"]

/-- The error taxonomy names of §7. -/
def specErrorClasses : List String :=
  ["CoreError", "AuthenticationError", "InferenceError", "ModelError",
   "TimeoutError", "CancellationError"]

/-- A concrete backend for concrete evaluations: always produces token 7 and
never signals end-of-sequence. -/
def constBackend : ModelBackend := fun _ => some 7

/-- A concrete model info (id 1, context window 2048) for concrete
evaluations, following Scenario B of the spec. -/
def demoInfo : ModelInfo := ⟨1, "m", 2048, 32⟩

/-- A concrete registry with model 1 loaded. -/
def demoRegistry : ModelRegistry :=
  { table := [(1, ⟨constBackend, demoInfo, 0⟩)] }

/-- A concrete session in the `Active` phase. -/
def demoSession : Session := ⟨0, .active⟩

/-- Concrete params following Scenario B: model 1, tokens [1, 2, 3], at most
5 new tokens. -/
def demoParams : InferenceParams := ⟨1, [1, 2, 3], 5, none⟩

/-- Concrete params following Scenario C: model 1, tokens [1, 2, 3], at most
100 new tokens. -/
def demoStreamParams : InferenceParams := ⟨1, [1, 2, 3], 100, none⟩

/-- Concrete malformed params: empty input token sequence. -/
def demoBadParams : InferenceParams := ⟨1, [], 5, none⟩

/-- The stream produced by the concrete streaming call on the demo setup. -/
def demoStream : TokenStream :=
  { chunks := chunksFrom 0 ((genLoop constBackend none none demoParams.tokens
      0 demoParams.maxNewTokens.toNat).1),
    consumed := false }

/-- Lookup in a table from which every pair keyed `a` was filtered out finds
nothing. -/
theorem lookup_filter_ne {β : Type} (a : Nat) :
    ∀ l : List (Nat × β), (l.filter (fun e => e.1 != a)).lookup a = none := by
  intro l
  induction l with
  | nil => rfl
  | cons e rest ih =>
    obtain ⟨k, v⟩ := e
    by_cases h : k = a
    · simpa [List.filter_cons, h] using ih
    · have h2 : (a == k) = false := by simpa using Ne.symm h
      simp [List.filter_cons, h, List.lookup, h2, ih]

/-- With no cancellation and no timeout, the generation loop produces at
most `fuel` tokens and stops for the length limit or the natural
end-of-sequence. -/
theorem genLoop_plain_bound (b : ModelBackend) :
    ∀ (fuel : Nat) (ctx : List Nat) (d : Nat),
      (genLoop b none none ctx d fuel).1.length ≤ fuel ∧
      ((genLoop b none none ctx d fuel).2 = .lengthLimit ∨
        (genLoop b none none ctx d fuel).2 = .naturalEnd) := by
  intro fuel
  induction fuel with
  | zero => intro ctx d; simp [genLoop]
  | succ n ih =>
    intro ctx d
    cases hb : b ctx with
    | none => simp [genLoop, fires, hb]
    | some t =>
      have h := ih (ctx ++ [t]) (d + 1)
      simp only [genLoop, fires, hb, if_false, List.length_cons]
      exact ⟨Nat.succ_le_succ h.1, h.2⟩

/-- A run under cancellation schedule `some m` produces exactly the first
`m - produced` tokens of the uncancelled run: cancellation truncates the
token sequence and never reorders or fabricates tokens. -/
theorem genLoop_cancel_take (b : ModelBackend) :
    ∀ (fuel : Nat) (ctx : List Nat) (d m : Nat),
      (genLoop b (some m) none ctx d fuel).1 =
        ((genLoop b none none ctx d fuel).1).take (m - d) := by
  intro fuel
  induction fuel with
  | zero => intro ctx d m; simp [genLoop]
  | succ n ih =>
    intro ctx d m
    by_cases hm : m ≤ d
    · have hz : m - d = 0 := Nat.sub_eq_zero_of_le hm
      simp [genLoop, fires, hm, hz]
    · cases hb : b ctx with
      | none => simp [genLoop, fires, hm, hb]
      | some t =>
        have heq : m - d = (m - (d + 1)) + 1 := by omega
        simp [genLoop, fires, hm, hb, heq]
        exact ih (ctx ++ [t]) (d + 1) m

/-- If the uncancelled run still produces a token at or beyond checkpoint
`k`, then the run under timeout schedule `some k` stops with the timed-out
reason: the deadline behaves like an external cancellation observed at the
next checkpoint. -/
theorem genLoop_timeout_timedOut (b : ModelBackend) :
    ∀ (fuel : Nat) (ctx : List Nat) (d k : Nat),
      d ≤ k → k < d + (genLoop b none none ctx d fuel).1.length →
      (genLoop b none (some k) ctx d fuel).2 = .timedOut := by
  intro fuel
  induction fuel with
  | zero =>
    intro ctx d k h1 h2
    simp [genLoop] at h2
    omega
  | succ n ih =>
    intro ctx d k h1 h2
    by_cases hk : k ≤ d
    · simp [genLoop, fires, hk]
    · cases hb : b ctx with
      | none =>
        simp [genLoop, fires, hb] at h2
        omega
      | some t =>
        simp [genLoop, fires, hb] at h2
        simp [genLoop, fires, hk, hb]
        exact ih (ctx ++ [t]) (d + 1) k (by omega) (by omega)

/-- The tokens carried by the chunk encoding of a token list are exactly
that list. -/
theorem chunksFrom_map_token : ∀ (l : List Nat) (i : Nat),
    (chunksFrom i l).map (fun c => c.token) = l
  | [], _ => rfl
  | [_], _ => rfl
  | t :: t2 :: r, i => by
    simp [chunksFrom, chunksFrom_map_token (t2 :: r) (i + 1)]

/-- The chunk encoding emits one chunk per token. -/
theorem chunksFrom_length : ∀ (l : List Nat) (i : Nat),
    (chunksFrom i l).length = l.length
  | [], _ => rfl
  | [_], _ => rfl
  | t :: t2 :: r, i => by
    simp [chunksFrom, chunksFrom_length (t2 :: r) (i + 1)]

/-- Admissibility of params unfolded: non-empty token sequence and positive
max-new-tokens. -/
theorem valid_iff (p : InferenceParams) :
    p.valid = true ↔ (p.tokens ≠ [] ∧ 0 < p.maxNewTokens) := by
  simp [InferenceParams.valid]

/-- Claim C3: `destroy` is idempotent — destroying an already-destroyed
session never fails (the operation is total) and the second call is a no-op:
it leaves the session-manager state exactly as the first `destroy` left it. -/
theorem c3_destroy_idempotent (m : SessionManager) (sid : Nat) :
    (m.destroy sid).destroy sid = m.destroy sid := by
  simp only [SessionManager.destroy, List.filter_filter]
  congr 1
  apply List.filter_congr
  intro e _
  cases h : (e.1 != sid) <;> simp [h]

/-- Claim C4: registering a model then resolving its id returns exactly the
`ModelInfo` (and backend) given at registration; after a successful unload of
that id, resolving it fails with `ModelError`; resolving a never-registered
id fails with `ModelError`; and registering an already-registered id fails
with `ModelError`. -/
theorem c4_registry_roundtrip (r r1 r2 : ModelRegistry) (id : Nat)
    (b : ModelBackend) (info : ModelInfo)
    (hreg : r.register id b info = .ok r1)
    (hun : r1.unload id = .ok r2) :
    r1.resolve id = .ok (b, info) ∧
    r2.resolve id = .error .model ∧
    (∀ j, r.find j = none → r.resolve j = .error .model) ∧
    (∀ j bj ij, (r.find j).isSome → r.register j bj ij = .error .model) := by
  have hr1 : r1 = { table := (id, ⟨b, info, 0⟩) :: r.table } := by
    unfold ModelRegistry.register at hreg
    cases hf : r.find id with
    | some e => rw [hf] at hreg; exact absurd hreg (by simp)
    | none => rw [hf] at hreg; simpa using hreg.symm
  have hfind1 : r1.find id = some ⟨b, info, 0⟩ := by
    rw [hr1]; simp [ModelRegistry.find, List.lookup]
  refine ⟨?_, ?_, ?_, ?_⟩
  · unfold ModelRegistry.resolve
    rw [hfind1]
  · have hr2 : r2 = { table := r1.table.filter (fun en => en.1 != id) } := by
      unfold ModelRegistry.unload at hun
      rw [hfind1] at hun
      simpa using hun.symm
    unfold ModelRegistry.resolve ModelRegistry.find
    rw [hr2]
    simp only
    rw [lookup_filter_ne]
  · intro j hj
    unfold ModelRegistry.resolve
    rw [hj]
  · intro j bj ij hj
    unfold ModelRegistry.register
    cases hf : r.find j with
    | some e => rfl
    | none => rw [hf] at hj; exact absurd hj (by simp)

/-- Witness for C4 at a concrete registry: the empty registry, model id 1,
a backend that immediately signals end-of-sequence, and a concrete info. -/
theorem c4_registry_roundtrip_witness :
    (({ table := [] } : ModelRegistry).register 1 (fun _ => none)
        ⟨1, "m", 2048, 32⟩ =
      .ok { table := [(1, ⟨fun _ => none, ⟨1, "m", 2048, 32⟩, 0⟩)] }) ∧
    (({ table := [(1, ⟨fun _ => none, ⟨1, "m", 2048, 32⟩, 0⟩)] } :
        ModelRegistry).unload 1 = .ok { table := [] }) ∧
    (({ table := [(1, ⟨fun _ => none, ⟨1, "m", 2048, 32⟩, 0⟩)] } :
        ModelRegistry).resolve 1 = .ok (fun _ => none, ⟨1, "m", 2048, 32⟩) ∧
      ({ table := [] } : ModelRegistry).resolve 1 = .error .model ∧
      (∀ j, ({ table := [] } : ModelRegistry).find j = none →
        ({ table := [] } : ModelRegistry).resolve j = .error .model) ∧
      (∀ j bj ij,
        (({ table := [] } : ModelRegistry).find j).isSome →
        ({ table := [] } : ModelRegistry).register j bj ij = .error .model)) :=
  ⟨rfl, rfl, c4_registry_roundtrip _ _ _ 1 _ _ rfl rfl⟩

/-- Claim C6: constructing a `Runtime` with a credential that does not match
the configured secret fails with `AuthenticationError`; the failure is fatal
to construction — the result is an error, so no `Runtime` is produced. -/
theorem c6_auth_failure (cfg : RuntimeConfig) (credential : String)
    (h : credential ≠ cfg.secret) :
    Runtime.new cfg credential = .error .authentication := by
  unfold Runtime.new AuthValidator.validate
  simp [h]

/-- Witness for C6: a runtime configured for secret "tok-A" constructed with
credential "tok-B" fails with `AuthenticationError`. -/
theorem c6_auth_failure_witness :
    ("tok-B" ≠ ("tok-A" : String)) ∧
    Runtime.new ⟨"tok-A", 8, 1000⟩ "tok-B" = .error .authentication :=
  ⟨by decide, c6_auth_failure ⟨"tok-A", 8, 1000⟩ "tok-B" (by decide)⟩

/-- Claim C1: on any session, at most one `infer`/`infer_streaming`
execution is ever in flight at a time — along every trace of the session
state machine the in-flight count never exceeds one — and a second call made
while one is in flight (the session in `InferenceRunning` or `Cancelling`)
fails immediately with the busy kind of `InferenceError`, leaving the state
unchanged: it neither blocks nor queues. -/
theorem c1_session_serialization :
    (∀ (p0 : SessionPhase) (ops : List SOp),
      inflightCount (execTrace p0 ops) ≤ 1) ∧
    (∀ (sid : Nat) (reg : ModelRegistry) (p : InferenceParams)
        (c t : Option Nat),
      (Session.mk sid .inferenceRunning).infer reg p c t =
        (⟨sid, .inferenceRunning⟩, .error (.inference .busy)) ∧
      (Session.mk sid .inferenceRunning).inferStreaming reg p c =
        (⟨sid, .inferenceRunning⟩, .error (.inference .busy)) ∧
      (Session.mk sid .cancelling).infer reg p c t =
        (⟨sid, .cancelling⟩, .error (.inference .busy)) ∧
      sessionStep .inferenceRunning .startCall =
        (.inferenceRunning, some (.inference .busy))) := by
  constructor
  · intro p0 ops
    cases execTrace p0 ops <;> simp [inflightCount]
  · intro sid reg p c t
    exact ⟨rfl, rfl, rfl, rfl⟩

/-- Claim C2: for a streaming call on an active session, with a cancellation
requested after `j` chunks were consumed and observed at the next checkpoint
(the schedule point `m` satisfies `j ≤ m ≤ j + 1`): the emitted chunk
sequence carries exactly an initial segment of the token sequence the same
call produces without cancellation — no token reordered or fabricated — and
at most `j + 1` chunks are emitted in total, i.e. at most one further chunk
after the request, after which no more chunks appear. -/
theorem c2_streaming_cancel_truncates (s : Session) (reg : ModelRegistry)
    (p : InferenceParams) (b : ModelBackend) (info : ModelInfo) (j m : Nat)
    (hph : s.phase = .active) (hv : p.valid = true)
    (hres : reg.resolve p.modelId = .ok (b, info))
    (hm1 : j ≤ m) (hm2 : m ≤ j + 1) :
    ∃ emitted : List StreamingResult,
      s.inferStreaming reg p (some m) =
        (s, .ok { chunks := emitted, consumed := false }) ∧
      s.inferStreaming reg p none =
        (s, .ok ⟨chunksFrom 0
          ((genLoop b none none p.tokens 0 p.maxNewTokens.toNat).1),
          false⟩) ∧
      (∃ rest, (genLoop b none none p.tokens 0 p.maxNewTokens.toNat).1 =
        emitted.map (fun c => c.token) ++ rest) ∧
      emitted.length ≤ j + 1 := by
  obtain ⟨sid, ph⟩ := s
  dsimp only at hph
  subst hph
  have htake := genLoop_cancel_take b p.maxNewTokens.toNat p.tokens 0 m
  rw [Nat.sub_zero] at htake
  refine ⟨chunksFrom 0 ((genLoop b none none p.tokens 0
    p.maxNewTokens.toNat).1.take m), ?_, ?_, ?_, ?_⟩
  · simp [Session.inferStreaming, hv, hres, htake]
  · simp [Session.inferStreaming, hv, hres]
  · refine ⟨(genLoop b none none p.tokens 0 p.maxNewTokens.toNat).1.drop m, ?_⟩
    rw [chunksFrom_map_token]
    exact (List.take_append_drop m _).symm
  · rw [chunksFrom_length]
    have hl : ((genLoop b none none p.tokens 0
        p.maxNewTokens.toNat).1.take m).length ≤ m := by
      rw [List.length_take]
      exact Nat.min_le_left _ _
    omega

/-- Witness for C2 at the Scenario C input: model 1, tokens [1, 2, 3], max
100 new tokens, cancellation after 3 chunks observed at checkpoint 4. -/
theorem c2_streaming_cancel_truncates_witness :
    (demoSession.phase = .active ∧ demoStreamParams.valid = true ∧
      demoRegistry.resolve demoStreamParams.modelId =
        .ok (constBackend, demoInfo) ∧ 3 ≤ 4 ∧ 4 ≤ 3 + 1) ∧
    (∃ emitted : List StreamingResult,
      demoSession.inferStreaming demoRegistry demoStreamParams (some 4) =
        (demoSession, .ok { chunks := emitted, consumed := false }) ∧
      demoSession.inferStreaming demoRegistry demoStreamParams none =
        (demoSession, .ok ⟨chunksFrom 0
          ((genLoop constBackend none none demoStreamParams.tokens 0
            demoStreamParams.maxNewTokens.toNat).1),
          false⟩) ∧
      (∃ rest, (genLoop constBackend none none demoStreamParams.tokens 0
          demoStreamParams.maxNewTokens.toNat).1 =
        emitted.map (fun c => c.token) ++ rest) ∧
      emitted.length ≤ 3 + 1) :=
  ⟨⟨rfl, by decide, rfl, by decide, by decide⟩,
    c2_streaming_cancel_truncates demoSession demoRegistry demoStreamParams
      constBackend demoInfo 3 4 rfl (by decide) rfl (by decide) (by decide)⟩

/-- Claim C5: when the per-call deadline fires at a checkpoint the
uncancelled generation would still pass (the timeout elapses before
generation completes), `infer` fails with `TimeoutError` — the deadline acts
exactly like an external cancellation at the next checkpoint — and the
session returned by the call is in the `Active` phase: its busy flag is
cleared immediately after the failure. -/
theorem c5_timeout_clears_busy (s : Session) (reg : ModelRegistry)
    (p : InferenceParams) (b : ModelBackend) (info : ModelInfo) (k : Nat)
    (hph : s.phase = .active) (hv : p.valid = true)
    (hres : reg.resolve p.modelId = .ok (b, info))
    (hk : k < (genLoop b none none p.tokens 0 p.maxNewTokens.toNat).1.length) :
    s.infer reg p none (some k) = (s, .error .timeout) ∧
    (s.infer reg p none (some k)).1.phase = .active := by
  obtain ⟨sid, ph⟩ := s
  dsimp only at hph
  subst hph
  have ht : (genLoop b none (some k) p.tokens 0 p.maxNewTokens.toNat).2 =
      .timedOut :=
    genLoop_timeout_timedOut b p.maxNewTokens.toNat p.tokens 0 k
      (Nat.zero_le k) (by omega)
  constructor
  · simp [Session.infer, hv, hres, ht]
  · simp [Session.infer, hv, hres, ht]

/-- Witness for C5: against the always-producing backend, a deadline firing
at checkpoint 2 of a 5-token generation yields `TimeoutError` with the
session active again. -/
theorem c5_timeout_clears_busy_witness :
    (demoSession.phase = .active ∧ demoParams.valid = true ∧
      demoRegistry.resolve demoParams.modelId = .ok (constBackend, demoInfo) ∧
      2 < (genLoop constBackend none none demoParams.tokens 0
        demoParams.maxNewTokens.toNat).1.length) ∧
    (demoSession.infer demoRegistry demoParams none (some 2) =
        (demoSession, .error .timeout) ∧
      (demoSession.infer demoRegistry demoParams none (some 2)).1.phase =
        .active) :=
  ⟨⟨rfl, by decide, rfl, by decide⟩,
    c5_timeout_clears_busy demoSession demoRegistry demoParams constBackend
      demoInfo 2 rfl (by decide) rfl (by decide)⟩

/-- Claim C7: a successful `infer` call (active session, admissible params,
resolvable model, no cancellation or timeout) returns a result whose token
count is at most the requested max-new-tokens and whose stop reason is
either the length limit or the natural end-of-sequence. -/
theorem c7_infer_respects_limits (s : Session) (reg : ModelRegistry)
    (p : InferenceParams) (b : ModelBackend) (info : ModelInfo)
    (hph : s.phase = .active) (hv : p.valid = true)
    (hres : reg.resolve p.modelId = .ok (b, info)) :
    ∃ res : InferenceResult,
      s.infer reg p none none = (s, .ok res) ∧
      res.tokenCount ≤ p.maxNewTokens.toNat ∧
      (res.stopReason = .lengthLimit ∨ res.stopReason = .naturalEnd) := by
  obtain ⟨sid, ph⟩ := s
  dsimp only at hph
  subst hph
  have h := genLoop_plain_bound b p.maxNewTokens.toNat p.tokens 0
  refine ⟨⟨(genLoop b none none p.tokens 0 p.maxNewTokens.toNat).1,
    (genLoop b none none p.tokens 0 p.maxNewTokens.toNat).2,
    (genLoop b none none p.tokens 0 p.maxNewTokens.toNat).1.length,
    (genLoop b none none p.tokens 0 p.maxNewTokens.toNat).1.length⟩,
    ?_, h.1, h.2⟩
  rcases h.2 with hr | hr <;> simp [Session.infer, hv, hres, hr]

/-- Witness for C7 at the Scenario B input: model 1, tokens [1, 2, 3], at
most 5 new tokens. -/
theorem c7_infer_respects_limits_witness :
    (demoSession.phase = .active ∧ demoParams.valid = true ∧
      demoRegistry.resolve demoParams.modelId =
        .ok (constBackend, demoInfo)) ∧
    (∃ res : InferenceResult,
      demoSession.infer demoRegistry demoParams none none =
        (demoSession, .ok res) ∧
      res.tokenCount ≤ demoParams.maxNewTokens.toNat ∧
      (res.stopReason = .lengthLimit ∨ res.stopReason = .naturalEnd)) :=
  ⟨⟨rfl, by decide, rfl⟩,
    c7_infer_respects_limits demoSession demoRegistry demoParams constBackend
      demoInfo rfl (by decide) rfl⟩

/-- Claim C8: every sequence returned by `infer_streaming` is finite (a
`List` of chunks) and not restartable: it comes back with its one-shot flag
unset, the first consumption yields the chunks and sets the flag, and any
second consumption attempt fails with `InferenceError`. -/
theorem c8_stream_one_shot (s s1 : Session) (reg : ModelRegistry)
    (p : InferenceParams) (c : Option Nat) (st : TokenStream)
    (hs : s.inferStreaming reg p c = (s1, .ok st)) :
    st.consumed = false ∧
    st.consume = .ok (st.chunks, { chunks := st.chunks, consumed := true }) ∧
    TokenStream.consume { chunks := st.chunks, consumed := true } =
      .error (.inference .streamConsumed) ∧
    CoreErr.isInference (.inference .streamConsumed) = true := by
  obtain ⟨sid, ph⟩ := s
  cases ph with
  | inferenceRunning => simp [Session.inferStreaming] at hs
  | cancelling => simp [Session.inferStreaming] at hs
  | destroyed => simp [Session.inferStreaming] at hs
  | active =>
    cases hv : p.valid with
    | false => simp [Session.inferStreaming, hv] at hs
    | true =>
      cases hres : reg.resolve p.modelId with
      | error e => simp [Session.inferStreaming, hv, hres] at hs
      | ok be =>
        simp [Session.inferStreaming, hv, hres] at hs
        obtain ⟨h1, h2⟩ := hs
        subst h2
        exact ⟨rfl, by simp [TokenStream.consume],
          by simp [TokenStream.consume], rfl⟩

/-- Witness for C8: the concrete streaming call on the demo setup produces a
fresh one-shot stream whose second consumption fails with
`InferenceError`. -/
theorem c8_stream_one_shot_witness :
    demoSession.inferStreaming demoRegistry demoParams none =
      (demoSession, .ok demoStream) ∧
    (demoStream.consumed = false ∧
      demoStream.consume = .ok (demoStream.chunks,
        { chunks := demoStream.chunks, consumed := true }) ∧
      TokenStream.consume { chunks := demoStream.chunks, consumed := true } =
        .error (.inference .streamConsumed) ∧
      CoreErr.isInference (.inference .streamConsumed) = true) :=
  ⟨rfl, c8_stream_one_shot demoSession demoSession demoRegistry demoParams
    none demoStream rfl⟩

/-- Claim C9: an `infer` or `infer_streaming` call on an active session with
an empty input token sequence or a non-positive max-new-tokens limit fails
with the malformed-params kind of `InferenceError`; and params are
admissible exactly when the token sequence is non-empty and max new tokens
is positive. -/
theorem c9_malformed_params (s : Session) (reg : ModelRegistry)
    (p : InferenceParams) (c t : Option Nat)
    (hph : s.phase = .active)
    (hbad : p.tokens = [] ∨ p.maxNewTokens ≤ 0) :
    s.infer reg p c t = (s, .error (.inference .malformedParams)) ∧
    s.inferStreaming reg p c = (s, .error (.inference .malformedParams)) ∧
    (∀ q : InferenceParams, q.valid = true ↔
      (q.tokens ≠ [] ∧ 0 < q.maxNewTokens)) := by
  have hv : p.valid = false := by
    rcases hbad with h | h
    · simp [InferenceParams.valid, h]
    · have h2 : ¬ (0 < p.maxNewTokens) := by omega
      simp [InferenceParams.valid, h2]
  obtain ⟨sid, ph⟩ := s
  dsimp only at hph
  subst hph
  exact ⟨by simp [Session.infer, hv], by simp [Session.inferStreaming, hv],
    fun q => valid_iff q⟩

/-- Witness for C9 at a concrete malformed input: params with an empty token
sequence. -/
theorem c9_malformed_params_witness :
    (demoSession.phase = .active ∧ demoBadParams.tokens = []) ∧
    (demoSession.infer demoRegistry demoBadParams none none =
        (demoSession, .error (.inference .malformedParams)) ∧
      demoSession.inferStreaming demoRegistry demoBadParams none =
        (demoSession, .error (.inference .malformedParams)) ∧
      (∀ q : InferenceParams, q.valid = true ↔
        (q.tokens ≠ [] ∧ 0 < q.maxNewTokens))) :=
  ⟨⟨rfl, rfl⟩, c9_malformed_params demoSession demoRegistry demoBadParams
    none none rfl (Or.inl rfl)⟩

/-- Claim C10 as stated is false on the package's real export surface:
`ModelRegistry` is named in the spec's external-interface list but is not an
exported name of veritas_spark, so its register/resolve/unload operations
are not reachable through the exported surface. -/
theorem c10_counterexample :
    "ModelRegistry" ∈ specInterfaceClasses ∧
    "ModelRegistry" ∉ veritasSparkAll ∧
    ¬ (∀ c ∈ specInterfaceClasses, c ∈ veritasSparkAll) := by
  decide

/-- Claim C10 (amended): the exported surface provides `Runtime`, `Session`
and `AsyncSession` — through which construction, session creation,
inference, streaming, cancel and destroy are reached — together with the
parameter/result/model-info types and the full error taxonomy of §7; but
`ModelRegistry` is not part of the exported surface. -/
theorem c10_exported_surface :
    "Runtime" ∈ veritasSparkAll ∧ "Session" ∈ veritasSparkAll ∧
    "AsyncSession" ∈ veritasSparkAll ∧ "InferenceParams" ∈ veritasSparkAll ∧
    "InferenceResult" ∈ veritasSparkAll ∧
    "StreamingResult" ∈ veritasSparkAll ∧ "ModelInfo" ∈ veritasSparkAll ∧
    (∀ e ∈ specErrorClasses, e ∈ veritasSparkAll) ∧
    "ModelRegistry" ∉ veritasSparkAll := by
  decide

end VeritasSpark
